import Mathlib

/-!
# Signature verification session of swupd-client (`src/signature.c`)

A shallow embedding of `signature.c`.  The file-scope statics
(`initialized`, `pkey`, `cert`, `chain`, `crl`, `certificate`, `ca_dirname`)
become the record `Session`; every function of the file becomes a function
that takes the session and returns its C return value, the session after
the call and the list of library calls it made, in program order.

Everything outside the file (libc, OpenSSL, `swupd_curl_get_file`) is an
oracle in `Env`, one record per API call: the C return value of each
external function is whatever the record says.
-/

namespace Signature

/-- A parsed `X509 *` object, identified by a number. -/
abbrev X509 := Nat

/-- The `BUFFER_SIZE` of `signature.c`. -/
def BUFFER_SIZE : Nat := 4096

/-- An open `FILE *`: the bytes successive `fread` calls deliver, and the
value `ftell` reports after `fseek (fp, 0, SEEK_END)`. -/
structure FILE where
  bytes : List Nat
  size : Nat
deriving DecidableEq, Repr

/-- The library calls the module makes that are recorded. -/
inductive Event where
  | OpenSSL_add_all_ciphers
  | ERR_load_crypto_strings
  | ERR_free_strings
  | EVP_cleanup
  | EVP_PKEY_free (key : Option X509)
  | X509_free (c : Option X509)
  | fopen (path : String)
  | fclose (path : String)
  | EVP_VerifyInit
  | EVP_VerifyUpdate (chunk : List Nat)
  | EVP_VerifyFinal (digested : List Nat) (sig : List Nat) (key : Option X509)
  | PEM_read_X509 (path : String)
  | X509_STORE_new
  | X509_STORE_set_verify_cb_func
  | X509_STORE_load_locations (chain : String) (dir : Option String)
  | X509_STORE_set_default_paths
  | X509_STORE_add_lookup
  | X509_load_crl_file (crl : String)
  | X509_STORE_set_flags
  | X509_STORE_CTX_new
  | X509_STORE_CTX_init
  | X509_verify_cert
  | ERR_print_errors_fp
  | X509_STORE_free
  | X509_LOOKUP_free
  | swupd_curl_get_file (url : String) (dest : String)
  | unlink (path : String)
  | enter_signature_verify (data_filename : String) (sig_filename : String)
deriving DecidableEq, Repr

/-- The global crypto-library setup and teardown calls. -/
def Event.isGlobalSetup : Event → Bool
  | .OpenSSL_add_all_ciphers => true
  | .ERR_load_crypto_strings => true
  | .ERR_free_strings => true
  | .EVP_cleanup => true
  | _ => false

/-- Calls that open a file. -/
def Event.isOpen : Event → Bool
  | .fopen _ => true
  | _ => false

/-- Calls into the crypto library. -/
def Event.isCrypto : Event → Bool
  | .fopen _ => false
  | .fclose _ => false
  | .swupd_curl_get_file _ _ => false
  | .unlink _ => false
  | .enter_signature_verify _ _ => false
  | _ => true

/-- The file-scope statics of `signature.c`. -/
structure Session where
  initialized : Bool
  pkey : Option X509
  cert : Option X509
  chain : Option String
  crl : Option String
  certificate : Option String
  ca_dirname : Option String
deriving DecidableEq, Repr

/-- The statics as the C runtime initialises them: `initialized = false`,
every pointer NULL. -/
def Session.initial : Session :=
  ⟨false, none, none, none, none, none, none⟩

/-- The statics with the four path variables set to a configuration, the
rest as in `Session.initial`. -/
def Session.configured (chain crl certificate ca_dirname : Option String) : Session :=
  ⟨false, none, none, chain, crl, certificate, ca_dirname⟩

/-- What the external functions return during one API call.  A pointer
result is an `Option` (NULL is `none`) or a `Bool` (non-NULL is `true`);
an `int` result is an `Int`. -/
structure Env where
  fopen : String → Option FILE
  EVP_VerifyInit : Int
  EVP_VerifyUpdate : List Nat → List Nat → Int
  EVP_VerifyFinal : List Nat → List Nat → Option X509 → Int
  PEM_read_X509 : String → FILE → Option X509
  X509_STORE_new : Bool
  X509_STORE_load_locations : String → Option String → Int
  X509_STORE_set_default_paths : Int
  X509_STORE_add_lookup : Bool
  X509_load_crl_file : String → Int
  X509_STORE_CTX_new : Bool
  X509_STORE_CTX_init : Int
  X509_verify_cert : Int
  swupd_curl_get_file : String → String → Int

/-- A C return value, the statics after the call, and the calls made. -/
structure Outcome (α : Type) where
  ret : α
  state : Session
  trace : List Event

/-- The body of `get_certificates`: a stub that returns `true`. -/
def get_certificates : Bool := true

/-- The `error:` label of `validate_certificate`: print the error queue,
release what was acquired, return `false`. -/
def validate_certificate_error (s : Session) (pre : List Event)
    (fp : Option String) (store lookup : Bool) : Outcome Bool :=
  ⟨false, s,
    pre ++ [Event.ERR_print_errors_fp]
      ++ (match fp with
          | some p => [Event.fclose p]
          | none => [])
      ++ (if store then [Event.X509_STORE_free] else [])
      ++ (if lookup then [Event.X509_LOOKUP_free] else [])⟩

/-- The part of `validate_certificate` from the creation of the
verification context on (lines 304 to 321); `lookup` and `pre` carry the
local variable and the calls made so far. -/
def validate_certificate_verify (env : Env) (s : Session) (pre : List Event)
    (fp : String) (lookup : Bool) : Outcome Bool :=
  if !env.X509_STORE_CTX_new then
    validate_certificate_error s (pre ++ [Event.X509_STORE_CTX_new]) (some fp) true lookup
  else if env.X509_STORE_CTX_init ≠ 1 then
    validate_certificate_error s
      (pre ++ [Event.X509_STORE_CTX_new, Event.X509_STORE_CTX_init]) (some fp) true lookup
  else if env.X509_verify_cert ≠ 1 then
    validate_certificate_error s
      (pre ++ [Event.X509_STORE_CTX_new, Event.X509_STORE_CTX_init, Event.X509_verify_cert])
      (some fp) true lookup
  else
    -- printf ("Certificate verified correctly!\n"); goto error;
    validate_certificate_error s
      (pre ++ [Event.X509_STORE_CTX_new, Event.X509_STORE_CTX_init, Event.X509_verify_cert])
      (some fp) true lookup

/-- The function `validate_certificate`. -/
def validate_certificate (env : Env) (s : Session) : Outcome Bool :=
  match s.chain with
  | none => validate_certificate_error s [] none false false
  | some chain =>
  match s.certificate with
  | none => validate_certificate_error s [] none false false
  | some certificate =>
  match env.fopen certificate with
  | none => validate_certificate_error s [Event.fopen certificate] none false false
  | some fp =>
  let s1 : Session := { s with cert := env.PEM_read_X509 certificate fp }
  let t1 := [Event.fopen certificate, Event.PEM_read_X509 certificate]
  if s1.cert.isNone then
    validate_certificate_error s1 t1 (some certificate) false false
  else if !env.X509_STORE_new then
    validate_certificate_error s1 (t1 ++ [Event.X509_STORE_new]) (some certificate) false false
  else
  let t2 := t1 ++ [Event.X509_STORE_new, Event.X509_STORE_set_verify_cb_func,
    Event.X509_STORE_load_locations chain s.ca_dirname]
  if env.X509_STORE_load_locations chain s.ca_dirname ≠ 1 then
    validate_certificate_error s1 t2 (some certificate) true false
  else if env.X509_STORE_set_default_paths ≠ 1 then
    validate_certificate_error s1 (t2 ++ [Event.X509_STORE_set_default_paths])
      (some certificate) true false
  else
  let t3 := t2 ++ [Event.X509_STORE_set_default_paths]
  match s.crl with
  | some crl =>
    if !env.X509_STORE_add_lookup then
      validate_certificate_error s1 (t3 ++ [Event.X509_STORE_add_lookup])
        (some certificate) true false
    else if env.X509_load_crl_file crl ≠ 1 then
      validate_certificate_error s1
        (t3 ++ [Event.X509_STORE_add_lookup, Event.X509_load_crl_file crl])
        (some certificate) true true
    else
      validate_certificate_verify env s1
        (t3 ++ [Event.X509_STORE_add_lookup, Event.X509_load_crl_file crl,
          Event.X509_STORE_set_flags])
        certificate true
  | none => validate_certificate_verify env s1 t3 certificate false

/-- The function `load_certificate`: the parsed certificate, or NULL. -/
def load_certificate (env : Env) (file : String) : Option X509 × List Event :=
  match env.fopen file with
  | none => (none, [Event.fopen file])
  | some fp =>
    match env.PEM_read_X509 file fp with
    | none =>
      (none, [Event.fopen file, Event.PEM_read_X509 file, Event.ERR_print_errors_fp,
        Event.fclose file])
    | some c => (some c, [Event.fopen file, Event.PEM_read_X509 file, Event.fclose file])

/-- The function `signature_initialize`. -/
def signature_initialize (env : Env) (s : Session) (ca_cert_filename : String) :
    Outcome Bool :=
  if s.initialized then ⟨true, s, []⟩
  else
  let t0 := [Event.OpenSSL_add_all_ciphers, Event.ERR_load_crypto_strings]
  if !get_certificates then ⟨false, s, t0⟩
  else
  let v := validate_certificate env s
  if !v.ret then
    ⟨false, v.state, t0 ++ v.trace ++ [Event.ERR_free_strings, Event.EVP_cleanup]⟩
  else
  let l := load_certificate env ca_cert_filename
  let s2 : Session := { v.state with pkey := l.1 }
  if s2.pkey.isNone then ⟨false, s2, t0 ++ v.trace ++ l.2⟩
  else ⟨true, { s2 with initialized := true }, t0 ++ v.trace ++ l.2⟩

/-- The function `signature_terminate`.  The two objects are freed; the
pointer variables themselves are not reset by the C code. -/
def signature_terminate (s : Session) : Outcome Unit :=
  if s.initialized then
    ⟨(), { s with initialized := false },
      [Event.ERR_free_strings, Event.EVP_cleanup, Event.EVP_PKEY_free s.pkey,
        Event.X509_free s.cert]⟩
  else ⟨(), s, []⟩

/-- The `count` of one loop iteration of `validate_signature`:
`bytes_left > BUFFER_SIZE ? BUFFER_SIZE : bytes_left`. -/
def chunk_count (bytes_left : Nat) : Nat :=
  if bytes_left > BUFFER_SIZE then BUFFER_SIZE else bytes_left

/-- The `while (bytes_left > 0)` loop of `validate_signature`.  `stream` is
what is still unread of `fp_data`, `md_ctx` the bytes digested so far.  The
result is `none` after a `goto error`, else the final digest context; the
second component lists the calls made. -/
def validate_signature_loop (env : Env) (stream : List Nat) (bytes_left : Nat)
    (md_ctx : List Nat) : Option (List Nat) × List Event :=
  if bytes_left > 0 then
    let count := chunk_count bytes_left
    let buffer := stream.take count
    let len := buffer.length
    if len ≠ count then (none, [])
    else if env.EVP_VerifyUpdate md_ctx buffer = 0 then
      (none, [Event.EVP_VerifyUpdate buffer])
    else
      let r := validate_signature_loop env (stream.drop count) (bytes_left - len)
        (md_ctx ++ buffer)
      (r.1, Event.EVP_VerifyUpdate buffer :: r.2)
  else (some md_ctx, [])
termination_by bytes_left
decreasing_by
  have hc : 0 < count := by
    simp only [count, chunk_count, BUFFER_SIZE]
    split <;> omega
  show bytes_left - len < bytes_left
  omega

/-- The function `validate_signature`, with the static `pkey` passed in. -/
def validate_signature (env : Env) (pkey : Option X509) (fp_data fp_sig : FILE) :
    Bool × List Event :=
  let sig_buffer := fp_sig.bytes.take BUFFER_SIZE
  let data_size := fp_data.size
  if env.EVP_VerifyInit = 0 then
    (false, [Event.EVP_VerifyInit, Event.ERR_print_errors_fp])
  else
  let r := validate_signature_loop env fp_data.bytes data_size []
  match r.1 with
  | none => (false, Event.EVP_VerifyInit :: r.2 ++ [Event.ERR_print_errors_fp])
  | some md_ctx =>
    if env.EVP_VerifyFinal md_ctx sig_buffer pkey = 0 then
      (false, Event.EVP_VerifyInit :: r.2
        ++ [Event.EVP_VerifyFinal md_ctx sig_buffer pkey, Event.ERR_print_errors_fp])
    else
      (true, Event.EVP_VerifyInit :: r.2 ++ [Event.EVP_VerifyFinal md_ctx sig_buffer pkey])

/-- The function `signature_verify`.  The first recorded event marks the
entry into the function. -/
def signature_verify (env : Env) (s : Session) (data_filename sig_filename : String) :
    Outcome Bool :=
  let t0 := [Event.enter_signature_verify data_filename sig_filename]
  if !s.initialized then ⟨false, s, t0⟩
  else
  match env.fopen sig_filename with
  | none => ⟨false, s, t0 ++ [Event.fopen sig_filename]⟩
  | some fp_sig =>
    match env.fopen data_filename with
    | none =>
      ⟨false, s, t0 ++ [Event.fopen sig_filename, Event.fopen data_filename,
        Event.fclose sig_filename]⟩
    | some fp_data =>
      let r := validate_signature env s.pkey fp_data fp_sig
      ⟨r.1, s, t0 ++ [Event.fopen sig_filename, Event.fopen data_filename] ++ r.2
        ++ [Event.fclose data_filename, Event.fclose sig_filename]⟩

/-- The function `signature_download_and_verify`. -/
def signature_download_and_verify (env : Env) (s : Session)
    (data_url data_filename : String) : Outcome Bool :=
  let sig_url := data_url ++ ".signed"
  let sig_filename := data_filename ++ ".signed"
  let ret := env.swupd_curl_get_file sig_url sig_filename
  let t0 := [Event.swupd_curl_get_file sig_url sig_filename]
  let r : Outcome Bool :=
    if ret ≠ 0 then ⟨false, s, t0⟩
    else
      let v := signature_verify env s data_filename sig_filename
      ⟨v.ret, v.state, t0 ++ v.trace⟩
  if !r.ret then ⟨r.ret, r.state, r.trace ++ [Event.unlink sig_filename]⟩
  else r

/-- The function `signature_delete`. -/
def signature_delete (s : Session) (data_filename : String) : Outcome Unit :=
  ⟨(), s, [Event.unlink (data_filename ++ ".signed")]⟩

/-- One call of the public API, with its arguments. -/
inductive Call where
  | init (ca_cert_filename : String)
  | terminate
  | verify (data_filename sig_filename : String)
  | download_and_verify (data_url data_filename : String)
  | delete (data_filename : String)

/-- The statics after one API call made in environment `env`. -/
def step (s : Session) (c : Env × Call) : Session :=
  match c.2 with
  | Call.init f => ( signature_initialize c.1 s f).state
  | Call.terminate => (signature_terminate s).state
  | Call.verify d g => (signature_verify c.1 s d g).state
  | Call.download_and_verify u d => (signature_download_and_verify c.1 s u d).state
  | Call.delete d => (signature_delete s d).state

/-- The statics after a sequence of API calls, each in its own environment. -/
def run (s : Session) (calls : List (Env × Call)) : Session :=
  calls.foldl step s

/-- An environment in which every external call succeeds: files open as
`files` says, every parse and allocation succeeds, every `int` result is 1
except the fetch, which returns 0, and the verify primitive returns
`verdict`. -/
def Env.allSucceed (files : String → Option FILE) (verdict : Int) : Env where
  fopen := files
  EVP_VerifyInit := 1
  EVP_VerifyUpdate := fun _ _ => 1
  EVP_VerifyFinal := fun _ _ _ => verdict
  PEM_read_X509 := fun _ _ => some 7
  X509_STORE_new := true
  X509_STORE_load_locations := fun _ _ => 1
  X509_STORE_set_default_paths := 1
  X509_STORE_add_lookup := true
  X509_load_crl_file := fun _ => 1
  X509_STORE_CTX_new := true
  X509_STORE_CTX_init := 1
  X509_verify_cert := 1
  swupd_curl_get_file := fun _ _ => 0

/-- A file system in which every path opens as the three bytes 1, 2, 3. -/
def everyFile : String → Option FILE :=
  fun _ => some ⟨[1, 2, 3], 3⟩

/-- A session with the chain and the leaf certificate configured and no
revocation list, not yet initialized. -/
def configuredNoCrl : Session :=
  Session.configured (some "chain.pem") none (some "leaf.pem") none

/-- A session with chain, leaf certificate and revocation list configured,
not yet initialized. -/
def configuredWithCrl : Session :=
  Session.configured (some "chain.pem") (some "crl.pem") (some "leaf.pem") none

/-- A session value with `initialized = true`, key 7 and certificate 7. -/
def readySession : Session :=
  ⟨true, some 7, some 7, some "chain.pem", none, some "leaf.pem", none⟩

/-- A signature blob of 4097 bytes, one more than `BUFFER_SIZE`. -/
def oversizedSig : List Nat := List.replicate 4097 0

/-- A file system with the blob `oversizedSig` at `update.pack.signed`;
every other path opens as the three bytes 1, 2, 3. -/
def oversizedSigFiles : String → Option FILE :=
  fun p =>
    if p = "update.pack.signed" then some ⟨oversizedSig, 4097⟩
    else some ⟨[1, 2, 3], 3⟩

/-- An environment like `Env.allSucceed everyFile 1` except that the fetch
fails with a non-zero code. -/
def fetchFails : Env :=
  { Env.allSucceed everyFile 1 with swupd_curl_get_file := fun _ _ => 22 }

/-- An environment like `Env.allSucceed everyFile 1` except that the
revocation list fails to load. -/
def crlUnloadable : Env :=
  { Env.allSucceed everyFile 1 with X509_load_crl_file := fun _ => 0 }

/-- What holds of the statics in every reachable state: the flag is off and
no key is loaded. -/
def Session.idle (s : Session) : Prop :=
  s.initialized = false ∧ s.pkey = none

instance (s : Session) : Decidable s.idle := by
  unfold Session.idle
  infer_instance

/-! ## Certificate validation never reports success -/

theorem validate_certificate_error_ret (s : Session) (pre : List Event)
    (fp : Option String) (store lookup : Bool) :
    (validate_certificate_error s pre fp store lookup).ret = false := rfl

theorem validate_certificate_error_state (s : Session) (pre : List Event)
    (fp : Option String) (store lookup : Bool) :
    (validate_certificate_error s pre fp store lookup).state = s := rfl

theorem validate_certificate_verify_ret (env : Env) (s : Session) (pre : List Event)
    (fp : String) (lookup : Bool) :
    (validate_certificate_verify env s pre fp lookup).ret = false := by
  unfold validate_certificate_verify
  split_ifs <;> rfl

theorem validate_certificate_verify_state (env : Env) (s : Session) (pre : List Event)
    (fp : String) (lookup : Bool) :
    (validate_certificate_verify env s pre fp lookup).state = s := by
  unfold validate_certificate_verify
  split_ifs <;> rfl

/-- Every path through `validate_certificate` ends at the `error:` label,
the one after a successful `X509_verify_cert` included. -/
theorem validate_certificate_ret (env : Env) (s : Session) :
    (validate_certificate env s).ret = false := by
  unfold validate_certificate
  dsimp only
  repeat' split
  all_goals
    first
    | rfl
    | exact validate_certificate_verify_ret _ _ _ _ _

/-- The only static `validate_certificate` may write is `cert`. -/
theorem validate_certificate_state (env : Env) (s : Session) :
    ∃ c, (validate_certificate env s).state = { s with cert := c } := by
  unfold validate_certificate
  dsimp only
  repeat' split
  all_goals
    first
    | exact ⟨s.cert, rfl⟩
    | exact ⟨_, rfl⟩
    | exact ⟨_, validate_certificate_verify_state _ _ _ _ _⟩

theorem validate_certificate_initialized (env : Env) (s : Session) :
    (validate_certificate env s).state.initialized = s.initialized := by
  obtain ⟨c, hc⟩ := validate_certificate_state env s
  rw [hc]

theorem validate_certificate_pkey (env : Env) (s : Session) :
    (validate_certificate env s).state.pkey = s.pkey := by
  obtain ⟨c, hc⟩ := validate_certificate_state env s
  rw [hc]

/-! ## Traces of certificate validation -/

theorem validate_certificate_error_trace_all (P : Event → Prop) (s : Session)
    (pre : List Event) (fp : Option String) (store lookup : Bool)
    (hpre : ∀ e ∈ pre, P e) (herr : P Event.ERR_print_errors_fp)
    (hclose : ∀ p, P (Event.fclose p)) (hstore : P Event.X509_STORE_free)
    (hlookup : P Event.X509_LOOKUP_free) :
    ∀ e ∈ (validate_certificate_error s pre fp store lookup).trace, P e := by
  intro e he
  simp only [validate_certificate_error, List.mem_append, List.mem_singleton] at he
  rcases he with ((((he | he) | he) | he) | he)
  · exact hpre e he
  · exact he ▸ herr
  · cases fp with
    | none => simp at he
    | some p => simp at he; exact he ▸ hclose p
  · cases store <;> simp at he
    exact he ▸ hstore
  · cases lookup <;> simp at he
    exact he ▸ hlookup

/-- No call made by `validate_certificate` is a global setup or teardown
call. -/
theorem validate_certificate_trace_setup (env : Env) (s : Session) :
    ∀ e ∈ (validate_certificate env s).trace, e.isGlobalSetup = false := by
  unfold validate_certificate
  dsimp only
  repeat' split
  all_goals
    first
    | (apply validate_certificate_error_trace_all (fun e => e.isGlobalSetup = false)
       all_goals simp [Event.isGlobalSetup])
    | (unfold validate_certificate_verify
       split_ifs
       all_goals
         apply validate_certificate_error_trace_all (fun e => e.isGlobalSetup = false)
         all_goals simp [Event.isGlobalSetup])

theorem validate_certificate_trace_filter (env : Env) (s : Session) :
    (validate_certificate env s).trace.filter Event.isGlobalSetup = [] := by
  rw [List.filter_eq_nil_iff]
  intro e he
  simp [validate_certificate_trace_setup env s e he]

/-! ## Session initialization -/

/-- From the uninitialized state `signature_initialize` always takes the
branch of the failed certificate validation. -/
theorem signature_initialize_uninit (env : Env) (s : Session) (f : String)
    (h : s.initialized = false) :
    signature_initialize env s f =
      ⟨false, (validate_certificate env s).state,
        [Event.OpenSSL_add_all_ciphers, Event.ERR_load_crypto_strings]
          ++ (validate_certificate env s).trace
          ++ [Event.ERR_free_strings, Event.EVP_cleanup]⟩ := by
  unfold signature_initialize
  simp [h, get_certificates, validate_certificate_ret]

/-- C1: at an uninitialized session with chain and leaf certificate
configured, no revocation list, and an environment where every file opens,
every library call succeeds and `X509_verify_cert` returns 1,
`validate_certificate` returns `false` and `signature_initialize` returns
`false` and leaves `initialized = false`. -/
theorem C1_validation_success_is_reported_as_failure :
    configuredNoCrl.initialized = false
    ∧ (Env.allSucceed everyFile 1).X509_verify_cert = 1
    ∧ Event.X509_verify_cert ∈
        (validate_certificate (Env.allSucceed everyFile 1) configuredNoCrl).trace
    ∧ (validate_certificate (Env.allSucceed everyFile 1) configuredNoCrl).ret = false
    ∧ ( signature_initialize (Env.allSucceed everyFile 1) configuredNoCrl "leaf.pem").ret
        = false
    ∧ ( signature_initialize (Env.allSucceed everyFile 1) configuredNoCrl
        "leaf.pem").state.initialized = false := by
  decide

/-! ## The digest loop -/

theorem chunk_count_pos (n : Nat) (h : 0 < n) : 0 < chunk_count n := by
  simp only [chunk_count, BUFFER_SIZE]
  split <;> omega

theorem chunk_count_le (n : Nat) : chunk_count n ≤ n ∧ chunk_count n ≤ BUFFER_SIZE := by
  simp only [chunk_count, BUFFER_SIZE]
  split <;> omega

theorem validate_signature_loop_zero (env : Env) (stream md_ctx : List Nat) :
    validate_signature_loop env stream 0 md_ctx = (some md_ctx, []) := by
  rw [validate_signature_loop]
  simp

/-- One successful iteration: `count` bytes are there and the update
succeeds. -/
theorem validate_signature_loop_step (env : Env) (stream md_ctx : List Nat) (n : Nat)
    (hn : 0 < n) (hlen : chunk_count n ≤ stream.length)
    (hup : env.EVP_VerifyUpdate md_ctx (stream.take (chunk_count n)) ≠ 0) :
    validate_signature_loop env stream n md_ctx =
      ((validate_signature_loop env (stream.drop (chunk_count n)) (n - chunk_count n)
          (md_ctx ++ stream.take (chunk_count n))).1,
        Event.EVP_VerifyUpdate (stream.take (chunk_count n))
          :: (validate_signature_loop env (stream.drop (chunk_count n)) (n - chunk_count n)
          (md_ctx ++ stream.take (chunk_count n))).2) := by
  rw [validate_signature_loop]
  have hl : (stream.take (chunk_count n)).length = chunk_count n := by
    rw [List.length_take]
    omega
  simp [hn, hl, hup]

/-- Every call the loop makes is an `EVP_VerifyUpdate`. -/
theorem validate_signature_loop_trace (env : Env) (n : Nat) :
    ∀ (stream md_ctx : List Nat), ∀ e ∈ (validate_signature_loop env stream n md_ctx).2,
      ∃ c, e = Event.EVP_VerifyUpdate c := by
  induction n using Nat.strong_induction_on with
  | _ n ih =>
    intro stream md_ctx e he
    rw [validate_signature_loop] at he
    by_cases hn : n > 0
    · simp only [hn, if_true] at he
      split_ifs at he with h1 h2
      · simp at he
      · simp at he
        exact ⟨_, he⟩
      · simp only [List.mem_cons] at he
        rcases he with he | he
        · exact ⟨_, he⟩
        · have hpos := chunk_count_pos n hn
          have hl : (stream.take (chunk_count n)).length = chunk_count n := by
            simpa using h1
          exact ih (n - (stream.take (chunk_count n)).length) (by omega) _ _ e he
    · simp [hn] at he

/-- When the stream holds exactly `n` bytes and every update succeeds, the
loop ends without error after feeding the stream, cut into pieces of at
most `BUFFER_SIZE` bytes, to `EVP_VerifyUpdate`: the pieces concatenate to
the stream, none is empty, and there are `ceil (n / BUFFER_SIZE)` of them. -/
theorem validate_signature_loop_streams (env : Env)
    (hup : ∀ c b, env.EVP_VerifyUpdate c b ≠ 0) (n : Nat) :
    ∀ (stream md_ctx : List Nat), stream.length = n →
      ∃ chunks : List (List Nat),
        validate_signature_loop env stream n md_ctx
          = (some (md_ctx ++ stream), chunks.map Event.EVP_VerifyUpdate)
        ∧ chunks.flatten = stream
        ∧ (∀ c ∈ chunks, 0 < c.length ∧ c.length ≤ BUFFER_SIZE)
        ∧ chunks.length = (n + (BUFFER_SIZE - 1)) / BUFFER_SIZE := by
  induction n using Nat.strong_induction_on with
  | _ n ih =>
    intro stream md_ctx hlen
    by_cases hn : n > 0
    · have hpos := chunk_count_pos n hn
      have hle := chunk_count_le n
      have htake : (stream.take (chunk_count n)).length = chunk_count n := by
        rw [List.length_take]
        omega
      obtain ⟨chunks, h1, h2, h3, h4⟩ :=
        ih (n - chunk_count n) (by omega) (stream.drop (chunk_count n))
          (md_ctx ++ stream.take (chunk_count n)) (by rw [List.length_drop]; omega)
      refine ⟨stream.take (chunk_count n) :: chunks, ?_, ?_, ?_, ?_⟩
      · rw [validate_signature_loop_step env stream md_ctx n hn (by omega) (hup _ _), h1]
        simp [List.append_assoc]
      · simp [h2]
      · intro c hc
        rcases List.mem_cons.mp hc with hc | hc
        · subst hc
          omega
        · exact h3 c hc
      · simp only [List.length_cons, h4]
        simp only [chunk_count, BUFFER_SIZE] at *
        split_ifs at * <;> omega
    · have h0 : n = 0 := by omega
      subst h0
      have hs : stream = [] := List.length_eq_zero.mp hlen
      subst hs
      exact ⟨[], by simp [validate_signature_loop_zero], rfl, by simp, by simp [BUFFER_SIZE]⟩

/-! ## Signature validation -/

/-- When `ftell` reports the true length of the data file and the digest
init and update calls succeed, `validate_signature` feeds the whole file
to the digest in `ceil (n / BUFFER_SIZE)` non-empty pieces of at most
`BUFFER_SIZE` bytes, then calls `EVP_VerifyFinal` on the file content, the
first `BUFFER_SIZE` bytes of the signature file and the key, and returns
`true` exactly when that call returns a non-zero value. -/
theorem validate_signature_streams (env : Env) (pkey : Option X509) (fp_data fp_sig : FILE)
    (hsize : fp_data.size = fp_data.bytes.length) (hinit : env.EVP_VerifyInit ≠ 0)
    (hup : ∀ c b, env.EVP_VerifyUpdate c b ≠ 0) :
    ∃ chunks : List (List Nat),
      chunks.flatten = fp_data.bytes
      ∧ (∀ c ∈ chunks, 0 < c.length ∧ c.length ≤ BUFFER_SIZE)
      ∧ chunks.length = (fp_data.bytes.length + (BUFFER_SIZE - 1)) / BUFFER_SIZE
      ∧ validate_signature env pkey fp_data fp_sig =
        (decide (env.EVP_VerifyFinal fp_data.bytes (fp_sig.bytes.take BUFFER_SIZE) pkey ≠ 0),
          Event.EVP_VerifyInit :: chunks.map Event.EVP_VerifyUpdate
            ++ Event.EVP_VerifyFinal fp_data.bytes (fp_sig.bytes.take BUFFER_SIZE) pkey
              :: (if env.EVP_VerifyFinal fp_data.bytes (fp_sig.bytes.take BUFFER_SIZE) pkey = 0
                  then [Event.ERR_print_errors_fp] else [])) := by
  obtain ⟨chunks, h1, h2, h3, h4⟩ :=
    validate_signature_loop_streams env hup fp_data.size fp_data.bytes [] hsize.symm
  refine ⟨chunks, h2, h3, hsize ▸ h4, ?_⟩
  unfold validate_signature
  simp only [hinit, if_false, h1, List.nil_append]
  split_ifs with h <;> simp [h]

/-- Every call `validate_signature` makes is a call into the crypto
library. -/
theorem validate_signature_trace (env : Env) (pkey : Option X509) (fp_data fp_sig : FILE) :
    ∀ e ∈ (validate_signature env pkey fp_data fp_sig).2, e.isCrypto = true := by
  have hloop : ∀ e ∈ (validate_signature_loop env fp_data.bytes fp_data.size []).2,
      e.isCrypto = true := by
    intro e he
    obtain ⟨c, hc⟩ := validate_signature_loop_trace env _ _ _ e he
    subst hc
    rfl
  intro e he
  unfold validate_signature at he
  dsimp only at he
  split_ifs at he with h0
  · simp at he
    rcases he with he | he <;> subst he <;> rfl
  · split at he
    · simp at he
      rcases he with he | he | he
      · subst he; rfl
      · exact hloop e he
      · subst he; rfl
    · split_ifs at he
      · simp at he
        rcases he with he | he | he | he
        · subst he; rfl
        · exact hloop e he
        · subst he; rfl
        · subst he; rfl
      · simp at he
        rcases he with he | he | he
        · subst he; rfl
        · exact hloop e he
        · subst he; rfl

/-- C2: at a three-byte data file, a one-byte signature and an environment
whose `EVP_VerifyFinal` returns the error value -1, `validate_signature`
feeds the file to the digest, calls the verify primitive on the whole
content and returns `true`, although the primitive did not return 1. -/
theorem C2_verify_error_is_accepted :
    (Env.allSucceed everyFile (-1)).EVP_VerifyFinal [1, 2, 3] [9] (some 7) = -1
    ∧ validate_signature (Env.allSucceed everyFile (-1)) (some 7) ⟨[1, 2, 3], 3⟩ ⟨[9], 1⟩
      = (true, [Event.EVP_VerifyInit, Event.EVP_VerifyUpdate [1, 2, 3],
          Event.EVP_VerifyFinal [1, 2, 3] [9] (some 7)]) := by
  refine ⟨rfl, ?_⟩
  simp [validate_signature, validate_signature_loop, chunk_count, Env.allSucceed, BUFFER_SIZE]

/-! ## Local verification -/

/-- With the session initialized and both files open, `signature_verify`
returns what `validate_signature` returns on them. -/
theorem signature_verify_ready (env : Env) (s : Session) (d g : String)
    (fp_data fp_sig : FILE) (hs : s.initialized = true)
    (hg : env.fopen g = some fp_sig) (hd : env.fopen d = some fp_data) :
    signature_verify env s d g =
      ⟨(validate_signature env s.pkey fp_data fp_sig).1, s,
        [Event.enter_signature_verify d g] ++ [Event.fopen g, Event.fopen d]
          ++ (validate_signature env s.pkey fp_data fp_sig).2
          ++ [Event.fclose d, Event.fclose g]⟩ := by
  unfold signature_verify
  simp [hs, hg, hd]

/-- The statics are not written by `signature_verify`. -/
theorem signature_verify_state (env : Env) (s : Session) (d g : String) :
    (signature_verify env s d g).state = s := by
  unfold signature_verify
  dsimp only
  repeat' split
  all_goals rfl

/-- No call made by `signature_verify` is an `unlink`. -/
theorem signature_verify_no_unlink (env : Env) (s : Session) (d g p : String) :
    Event.unlink p ∉ (signature_verify env s d g).trace := by
  unfold signature_verify
  dsimp only
  cases s.initialized with
  | false => simp
  | true =>
    cases env.fopen g with
    | none => simp
    | some fp_sig =>
      cases env.fopen d with
      | none => simp
      | some fp_data =>
        intro h
        simp at h
        have hc := validate_signature_trace _ _ _ _ _ h
        simp [Event.isCrypto] at hc

theorem oversizedSig_length : oversizedSig.length = 4097 := by
  rw [oversizedSig, List.length_replicate]

/-- C3 (as stated, refuted): with a signature file of 4097 bytes, one more
than the buffer, an initialized session and a verify primitive that
accepts, `signature_verify` returns `true`, and the primitive was called on
the first 4096 bytes of the signature. -/
theorem C3_oversized_signature_is_truncated_and_accepted :
    oversizedSigFiles "update.pack.signed" = some ⟨oversizedSig, 4097⟩
    ∧ BUFFER_SIZE < oversizedSig.length
    ∧ (oversizedSig.take BUFFER_SIZE).length = 4096
    ∧ (signature_verify (Env.allSucceed oversizedSigFiles 1) readySession
        "update.pack" "update.pack.signed").ret = true
    ∧ Event.EVP_VerifyFinal [1, 2, 3] (oversizedSig.take BUFFER_SIZE) (some 7) ∈
        (signature_verify (Env.allSucceed oversizedSigFiles 1) readySession
          "update.pack" "update.pack.signed").trace := by
  have hv := signature_verify_ready (Env.allSucceed oversizedSigFiles 1) readySession
    "update.pack" "update.pack.signed" ⟨[1, 2, 3], 3⟩ ⟨oversizedSig, 4097⟩
    rfl (by simp [Env.allSucceed, oversizedSigFiles])
    (by simp [Env.allSucceed, oversizedSigFiles])
  have hs : validate_signature (Env.allSucceed oversizedSigFiles 1) readySession.pkey
      ⟨[1, 2, 3], 3⟩ ⟨oversizedSig, 4097⟩
      = (true, [Event.EVP_VerifyInit, Event.EVP_VerifyUpdate [1, 2, 3],
          Event.EVP_VerifyFinal [1, 2, 3] (oversizedSig.take BUFFER_SIZE) (some 7)]) := by
    simp [validate_signature, validate_signature_loop, chunk_count, Env.allSucceed,
      BUFFER_SIZE, readySession]
  rw [hv, hs]
  refine ⟨by simp [oversizedSigFiles], ?_, ?_, rfl, by simp⟩
  · rw [oversizedSig_length]
    simp [BUFFER_SIZE]
  · rw [List.length_take, oversizedSig_length]
    simp [BUFFER_SIZE]

/-- C3 (amended): a signature file longer than `BUFFER_SIZE` is not
rejected.  With the session initialized, both files open, the data file
read in full and the digest init and update calls succeeding,
`signature_verify` calls the verify primitive on the file content, the
first `BUFFER_SIZE` bytes of the signature file and the session key, and
returns `true` when that call returns 1 and `false` when it returns 0. -/
theorem C3_oversized_signature_verdict_on_prefix (env : Env) (s : Session) (d g : String)
    (fp_data fp_sig : FILE) (hs : s.initialized = true)
    (hg : env.fopen g = some fp_sig) (hd : env.fopen d = some fp_data)
    (hlong : BUFFER_SIZE < fp_sig.bytes.length)
    (hsize : fp_data.size = fp_data.bytes.length) (hinit : env.EVP_VerifyInit ≠ 0)
    (hup : ∀ c b, env.EVP_VerifyUpdate c b ≠ 0) :
    (fp_sig.bytes.take BUFFER_SIZE).length = BUFFER_SIZE
    ∧ Event.EVP_VerifyFinal fp_data.bytes (fp_sig.bytes.take BUFFER_SIZE) s.pkey
        ∈ (signature_verify env s d g).trace
    ∧ (∀ e ∈ (signature_verify env s d g).trace, ∀ m sig k,
        e = Event.EVP_VerifyFinal m sig k → sig = fp_sig.bytes.take BUFFER_SIZE)
    ∧ (env.EVP_VerifyFinal fp_data.bytes (fp_sig.bytes.take BUFFER_SIZE) s.pkey = 1 →
        (signature_verify env s d g).ret = true)
    ∧ (env.EVP_VerifyFinal fp_data.bytes (fp_sig.bytes.take BUFFER_SIZE) s.pkey = 0 →
        (signature_verify env s d g).ret = false) := by
  obtain ⟨chunks, -, -, -, hv⟩ :=
    validate_signature_streams env s.pkey fp_data fp_sig hsize hinit hup
  rw [signature_verify_ready env s d g fp_data fp_sig hs hg hd, hv]
  refine ⟨?_, ?_, ?_, ?_, ?_⟩
  · rw [List.length_take]
    omega
  · simp
  · intro e he m sig k hek
    subst hek
    simp at he
    exact he.2.1
  · intro h1
    simp [h1]
  · intro h0
    simp [h0]

/-- Witness of `C3_oversized_signature_verdict_on_prefix`: the 4097-byte
signature file. -/
theorem C3_oversized_signature_verdict_on_prefix_witness :
    (Event.EVP_VerifyFinal [1, 2, 3] (oversizedSig.take BUFFER_SIZE) (some 7)
        ∈ (signature_verify (Env.allSucceed oversizedSigFiles 1) readySession
            "update.pack" "update.pack.signed").trace)
    ∧ (signature_verify (Env.allSucceed oversizedSigFiles 1) readySession
        "update.pack" "update.pack.signed").ret = true :=
  have h := C3_oversized_signature_verdict_on_prefix (Env.allSucceed oversizedSigFiles 1)
    readySession "update.pack" "update.pack.signed" ⟨[1, 2, 3], 3⟩
    ⟨oversizedSig, 4097⟩ rfl (by simp [Env.allSucceed, oversizedSigFiles])
    (by simp [Env.allSucceed, oversizedSigFiles])
    (by rw [oversizedSig_length]; simp [BUFFER_SIZE]) rfl
    (by simp [Env.allSucceed]) (by simp [Env.allSucceed])
  ⟨h.2.1, h.2.2.2.1 rfl⟩

/-! ## The uninitialized session -/

/-- Termination always leaves `initialized = false`. -/
theorem signature_terminate_initialized (s : Session) :
    (signature_terminate s).state.initialized = false := by
  unfold signature_terminate
  cases h : s.initialized <;> simp [h]

/-- A failed `signature_initialize` leaves `initialized = false`. -/
theorem signature_initialize_failed_initialized (env : Env) (s : Session) (f : String)
    (h : ( signature_initialize env s f).ret = false) :
    ( signature_initialize env s f).state.initialized = false := by
  cases hs : s.initialized with
  | false =>
    rw [signature_initialize_uninit env s f hs]
    exact (validate_certificate_initialized env s).trans hs
  | true => simp [ signature_initialize, hs] at h

/-- C4: in every session state with `initialized = false`,
`signature_verify` returns `false` for every pair of paths, leaves the
statics as they are, and makes no call at all after entering: it opens no
file and calls no crypto primitive. -/
theorem C4_verify_uninitialized_returns_false (env : Env) (s : Session) (d g : String)
    (h : s.initialized = false) :
    (signature_verify env s d g).ret = false
    ∧ (signature_verify env s d g).state = s
    ∧ (signature_verify env s d g).trace = [Event.enter_signature_verify d g]
    ∧ (∀ e ∈ (signature_verify env s d g).trace, e.isOpen = false ∧ e.isCrypto = false) := by
  have hv : signature_verify env s d g = ⟨false, s, [Event.enter_signature_verify d g]⟩ := by
    unfold signature_verify
    simp [h]
  rw [hv]
  refine ⟨rfl, rfl, rfl, ?_⟩
  intro e he
  simp at he
  subst he
  exact ⟨rfl, rfl⟩

/-- Witness of `C4_verify_uninitialized_returns_false`: the session after
`signature_terminate`, in an environment where every file would open. -/
theorem C4_verify_uninitialized_returns_false_witness :
    (signature_terminate readySession).state.initialized = false
    ∧ (signature_verify (Env.allSucceed everyFile 1) (signature_terminate readySession).state
        "update.pack" "update.pack.signed").ret = false
    ∧ (signature_verify (Env.allSucceed everyFile 1) (signature_terminate readySession).state
        "update.pack" "update.pack.signed").trace
        = [Event.enter_signature_verify "update.pack" "update.pack.signed"] :=
  have h := C4_verify_uninitialized_returns_false (Env.allSucceed everyFile 1)
    (signature_terminate readySession).state "update.pack" "update.pack.signed" (by decide)
  ⟨by decide, h.1, h.2.2.1⟩

/-- C5: every failing call of `signature_initialize` from the
uninitialized state leaves `initialized = false`, and the global setup and
teardown calls it made are, in order, `OpenSSL_add_all_ciphers`,
`ERR_load_crypto_strings`, `ERR_free_strings`, `EVP_cleanup`. -/
theorem C5_failed_initialize_releases_setup (env : Env) (s : Session) (f : String)
    (h : s.initialized = false) (hfail : ( signature_initialize env s f).ret = false) :
    ( signature_initialize env s f).state.initialized = false
    ∧ ( signature_initialize env s f).trace.filter Event.isGlobalSetup
      = [Event.OpenSSL_add_all_ciphers, Event.ERR_load_crypto_strings,
          Event.ERR_free_strings, Event.EVP_cleanup] := by
  refine ⟨signature_initialize_failed_initialized env s f hfail, ?_⟩
  rw [signature_initialize_uninit env s f h]
  simp [List.filter_append, validate_certificate_trace_filter, Event.isGlobalSetup]

/-- Witness of `C5_failed_initialize_releases_setup`: a session with no
certificate chain configured. -/
theorem C5_failed_initialize_releases_setup_witness :
    Session.initial.initialized = false
    ∧ ( signature_initialize (Env.allSucceed everyFile 1) Session.initial "leaf.pem").ret
        = false
    ∧ ( signature_initialize (Env.allSucceed everyFile 1) Session.initial
        "leaf.pem").state.initialized = false
    ∧ ( signature_initialize (Env.allSucceed everyFile 1) Session.initial
        "leaf.pem").trace.filter Event.isGlobalSetup
      = [Event.OpenSSL_add_all_ciphers, Event.ERR_load_crypto_strings,
          Event.ERR_free_strings, Event.EVP_cleanup] :=
  have h := C5_failed_initialize_releases_setup (Env.allSucceed everyFile 1)
    Session.initial "leaf.pem" (by decide) (by decide)
  ⟨by decide, by decide, h.1, h.2⟩

/-- C7: with `initialized = true`, `signature_initialize` returns `true`,
makes no call at all and leaves the statics unchanged, whatever its
argument and the environment. -/
theorem C7_initialize_idempotent (env : Env) (s : Session) (f : String)
    (h : s.initialized = true) :
    ( signature_initialize env s f).ret = true
    ∧ ( signature_initialize env s f).trace = []
    ∧ ( signature_initialize env s f).state = s := by
  unfold signature_initialize
  simp [h]

/-- Witness of `C7_initialize_idempotent`: a session value with
`initialized = true`. -/
theorem C7_initialize_idempotent_witness :
    readySession.initialized = true
    ∧ ( signature_initialize (Env.allSucceed everyFile 1) readySession "leaf.pem").ret = true
    ∧ ( signature_initialize (Env.allSucceed everyFile 1) readySession "leaf.pem").trace = []
    ∧ ( signature_initialize (Env.allSucceed everyFile 1) readySession "leaf.pem").state
        = readySession :=
  ⟨by decide, C7_initialize_idempotent (Env.allSucceed everyFile 1) readySession "leaf.pem"
    (by decide)⟩

/-! ## Remote verification -/

/-- The two shapes of a `signature_download_and_verify` call. -/
theorem signature_download_and_verify_eq (env : Env) (s : Session) (u d : String) :
    signature_download_and_verify env s u d =
      if env.swupd_curl_get_file (u ++ ".signed") (d ++ ".signed") ≠ 0 then
        ⟨false, s, [Event.swupd_curl_get_file (u ++ ".signed") (d ++ ".signed"),
          Event.unlink (d ++ ".signed")]⟩
      else
        ⟨(signature_verify env s d (d ++ ".signed")).ret, s,
          Event.swupd_curl_get_file (u ++ ".signed") (d ++ ".signed")
            :: (signature_verify env s d (d ++ ".signed")).trace
            ++ (if (signature_verify env s d (d ++ ".signed")).ret then []
                else [Event.unlink (d ++ ".signed")])⟩ := by
  unfold signature_download_and_verify
  dsimp only
  by_cases hf : env.swupd_curl_get_file (u ++ ".signed") (d ++ ".signed") = 0
  · cases hv : (signature_verify env s d (d ++ ".signed")).ret <;>
      simp [hf, hv, signature_verify_state]
  · simp [hf]

theorem signature_download_and_verify_state (env : Env) (s : Session) (u d : String) :
    (signature_download_and_verify env s u d).state = s := by
  rw [signature_download_and_verify_eq]
  split_ifs <;> rfl

/-- C8: `signature_download_and_verify` first fetches `data_url ++ ".signed"`
to `data_path ++ ".signed"`; when the fetch returns 0 its result is that of
`signature_verify data_path (data_path ++ ".signed")`, else `false`; and it
unlinks `data_path ++ ".signed"` if and only if its result is `false`. -/
theorem C8_download_and_verify_result_and_cleanup (env : Env) (s : Session)
    (data_url data_path : String) :
    (signature_download_and_verify env s data_url data_path).trace.head?
      = some (Event.swupd_curl_get_file (data_url ++ ".signed") (data_path ++ ".signed"))
    ∧ (signature_download_and_verify env s data_url data_path).ret
      = (if env.swupd_curl_get_file (data_url ++ ".signed") (data_path ++ ".signed") = 0
          then (signature_verify env s data_path (data_path ++ ".signed")).ret else false)
    ∧ (Event.unlink (data_path ++ ".signed")
        ∈ (signature_download_and_verify env s data_url data_path).trace
      ↔ (signature_download_and_verify env s data_url data_path).ret = false) := by
  rw [signature_download_and_verify_eq]
  have hno := signature_verify_no_unlink env s data_path (data_path ++ ".signed")
    (data_path ++ ".signed")
  by_cases hf : env.swupd_curl_get_file (data_url ++ ".signed") (data_path ++ ".signed") = 0
  · cases hv : (signature_verify env s data_path (data_path ++ ".signed")).ret <;>
      simp [hf, hv, hno]
  · simp [hf]

/-- C9: when the fetch returns non-zero, `signature_download_and_verify`
returns `false`, its only calls are the fetch and the unlink of the local
signature path, and `signature_verify` is not entered. -/
theorem C9_fetch_failure_skips_verification (env : Env) (s : Session)
    (data_url data_path : String)
    (hfetch : env.swupd_curl_get_file (data_url ++ ".signed") (data_path ++ ".signed") ≠ 0) :
    (signature_download_and_verify env s data_url data_path).ret = false
    ∧ (signature_download_and_verify env s data_url data_path).trace
      = [Event.swupd_curl_get_file (data_url ++ ".signed") (data_path ++ ".signed"),
          Event.unlink (data_path ++ ".signed")]
    ∧ (∀ d g, Event.enter_signature_verify d g
        ∉ (signature_download_and_verify env s data_url data_path).trace) := by
  rw [signature_download_and_verify_eq]
  simp [hfetch]

/-- Witness of `C9_fetch_failure_skips_verification`: an initialized
session, every file present, the fetch returning 22. -/
theorem C9_fetch_failure_skips_verification_witness :
    fetchFails.swupd_curl_get_file ("http://u/update.pack" ++ ".signed")
        ("update.pack" ++ ".signed") ≠ 0
    ∧ (signature_download_and_verify fetchFails readySession "http://u/update.pack"
        "update.pack").ret = false
    ∧ (signature_download_and_verify fetchFails readySession "http://u/update.pack"
        "update.pack").trace
      = [Event.swupd_curl_get_file ("http://u/update.pack" ++ ".signed")
          ("update.pack" ++ ".signed"), Event.unlink ("update.pack" ++ ".signed")] :=
  have h := C9_fetch_failure_skips_verification fetchFails readySession
    "http://u/update.pack" "update.pack" (by decide)
  ⟨by decide, h.1, h.2.1⟩

/-! ## Revocation list -/

/-- With a revocation list configured that cannot be loaded,
`validate_certificate` does not reach `X509_verify_cert`. -/
theorem validate_certificate_crl_unloadable (env : Env) (s : Session) (crl : String)
    (hcrl : s.crl = some crl)
    (hbad : env.X509_STORE_add_lookup = false ∨ env.X509_load_crl_file crl ≠ 1) :
    ∀ e ∈ (validate_certificate env s).trace, e ≠ Event.X509_verify_cert := by
  unfold validate_certificate
  dsimp only
  repeat' split
  all_goals
    first
    | (apply validate_certificate_error_trace_all (fun e => e ≠ Event.X509_verify_cert)
       all_goals simp)
    | (exfalso
       simp_all)

/-- C10: with a revocation list path configured and the list not loadable
(the lookup cannot be created, or `X509_load_crl_file` does not return 1),
`validate_certificate` returns `false` without calling `X509_verify_cert`,
and `signature_initialize` from the uninitialized state returns `false`,
leaves `initialized = false` and does not call `X509_verify_cert` either,
whatever the other external results are. -/
theorem C10_unloadable_crl_fails_closed (env : Env) (s : Session) (f crl : String)
    (hinit : s.initialized = false) (hcrl : s.crl = some crl)
    (hbad : env.X509_STORE_add_lookup = false ∨ env.X509_load_crl_file crl ≠ 1) :
    (validate_certificate env s).ret = false
    ∧ Event.X509_verify_cert ∉ (validate_certificate env s).trace
    ∧ ( signature_initialize env s f).ret = false
    ∧ ( signature_initialize env s f).state.initialized = false
    ∧ Event.X509_verify_cert ∉ ( signature_initialize env s f).trace := by
  have hv : Event.X509_verify_cert ∉ (validate_certificate env s).trace :=
    fun hmem => validate_certificate_crl_unloadable env s crl hcrl hbad _ hmem rfl
  rw [signature_initialize_uninit env s f hinit]
  refine ⟨validate_certificate_ret env s, hv, rfl, ?_, ?_⟩
  · exact (validate_certificate_initialized env s).trans hinit
  · simp [hv]

/-- Witness of `C10_unloadable_crl_fails_closed`: chain, leaf and
revocation list configured, every call succeeding except the load of the
revocation list. -/
theorem C10_unloadable_crl_fails_closed_witness :
    configuredWithCrl.crl = some "crl.pem"
    ∧ crlUnloadable.X509_load_crl_file "crl.pem" ≠ 1
    ∧ crlUnloadable.X509_verify_cert = 1
    ∧ (validate_certificate crlUnloadable configuredWithCrl).ret = false
    ∧ Event.X509_verify_cert ∉ (validate_certificate crlUnloadable configuredWithCrl).trace
    ∧ ( signature_initialize crlUnloadable configuredWithCrl "leaf.pem").ret = false
    ∧ ( signature_initialize crlUnloadable configuredWithCrl "leaf.pem").state.initialized
        = false :=
  have h := C10_unloadable_crl_fails_closed crlUnloadable configuredWithCrl "leaf.pem"
    "crl.pem" (by decide) (by decide) (Or.inr (by decide))
  ⟨by decide, by decide, by decide, h.1, h.2.1, h.2.2.1, h.2.2.2.1⟩

/-! ## The session invariant -/

theorem step_idle (s : Session) (c : Env × Call) (h : s.idle) : (step s c).idle := by
  obtain ⟨env, call⟩ := c
  obtain ⟨hi, hk⟩ := h
  cases call with
  | init f =>
    show ( signature_initialize env s f).state.idle
    rw [signature_initialize_uninit env s f hi]
    exact ⟨(validate_certificate_initialized env s).trans hi,
      (validate_certificate_pkey env s).trans hk⟩
  | terminate =>
    show (signature_terminate s).state.idle
    simp [signature_terminate, hi, hk, Session.idle]
  | verify d g =>
    show (signature_verify env s d g).state.idle
    rw [signature_verify_state]
    exact ⟨hi, hk⟩
  | download_and_verify u d =>
    show (signature_download_and_verify env s u d).state.idle
    rw [signature_download_and_verify_state]
    exact ⟨hi, hk⟩
  | delete d => exact ⟨hi, hk⟩

theorem run_idle (calls : List (Env × Call)) :
    ∀ s : Session, s.idle → (run s calls).idle := by
  induction calls with
  | nil => intro s h; exact h
  | cons c cs ih =>
    intro s h
    exact ih (step s c) (step_idle s c h)

/-- C6: in every state reached from the initial statics (with any
configuration of the four path variables) by any sequence of API calls in
any environments, key and certificate are both present if and only if
`initialized = true`. -/
theorem C6_key_and_cert_present_iff_initialized
    (chain crl certificate ca_dirname : Option String) (calls : List (Env × Call)) :
    ((run (Session.configured chain crl certificate ca_dirname) calls).pkey.isSome = true
      ∧ (run (Session.configured chain crl certificate ca_dirname) calls).cert.isSome = true)
    ↔ (run (Session.configured chain crl certificate ca_dirname) calls).initialized = true := by
  obtain ⟨hi, hk⟩ := run_idle calls (Session.configured chain crl certificate ca_dirname)
    ⟨rfl, rfl⟩
  simp [hi, hk]

end Signature
